import Mathlib

/-!
Shallow embedding of the apnsservice package (apnsobject.go and the public
surface apnsservice.go as reproduced in the repository README).

Go channels are modelled by their buffered contents (a list, oldest first)
or, for signal channels that are only ever closed, by a Bool recording
whether the channel has been closed.  Goroutine-local variables of
launchSocket become the fields of workerState.  Diagnostic message
formatting (fmt.Sprintf and friends) is abstracted to plain strings; only
the routing of entries and their socket tag are modelled.  File handles and
the APNS/feedback configuration structs carry no state relevant to the
claims and are omitted from the state record.
-/

namespace Apnsservice

/-- Status codes of a connection (the statusAPNS constants). -/
inductive statusAPNS where
  | apnsUnknown
  | apnsNoCerts
  | apnsCertsFound
  | apnsActive
deriving DecidableEq, Repr, Inhabited

/-- AppCert: the RSA certificate record passed for an app.  Certificate and
key bytes are modelled as lists of byte values. -/
structure AppCert where
  AppID : Int
  IsDev : Int
  Cert : List Nat
  RSAKey : List Nat
deriving DecidableEq, Repr, Inhabited

/-- The fields of apns.Payload that this package reads or writes.  The Go
zero value of the struct is the record of empty strings (the Inhabited
default). -/
structure Payload where
  token : String
  alertText : String
  extraData : String
  category : String
deriving DecidableEq, Repr, Inhabited

/-- A log entry passed through the log channel: the id of the socket that
produced it and the formatted message. -/
structure logEntry where
  socketID : Nat
  message : String
deriving DecidableEq, Repr, Inhabited

/-- The state of one connectionAPNS value.  chanSend and chanLog are the
buffered contents of the corresponding channels (oldest first); chanDone and
chanDoneLog are true once the corresponding signal channel has been closed. -/
structure connectionAPNS where
  appID : Int
  stringID : String
  cert : Option AppCert
  status : statusAPNS
  isLogging : Bool
  chanSend : List Payload
  chanLog : List logEntry
  chanDone : Bool
  chanDoneLog : Bool
deriving DecidableEq, Repr, Inhabited

/-- logPrint / logPrintln / logPrintf: push a log entry tagged with the
producing socket onto the log channel, provided logging is enabled.  The
three Go wrappers differ only in how they format the message, which is
abstracted here. -/
def logPush (a : connectionAPNS) (socketID : Nat) (message : String) : connectionAPNS :=
  if a.isLogging then
    { a with chanLog := a.chanLog ++ [{ socketID := socketID, message := message }] }
  else a

/-- pushOne: push one notification into the send channel, only while the
connection status is ApnsActive ("safety first"). -/
def pushOne (a : connectionAPNS) (payload : Payload) : connectionAPNS :=
  if a.status = statusAPNS.apnsActive then
    { a with chanSend := a.chanSend ++ [payload] }
  else a

/-- close: if the status is ApnsActive, close the done channel and demote
the status to ApnsCertsFound; otherwise do nothing. -/
def close (a : connectionAPNS) : connectionAPNS :=
  if a.status = statusAPNS.apnsActive then
    { a with chanDone := true, status := statusAPNS.apnsCertsFound }
  else a

/-- The cache size fixed by launchSocket: intCacheSize := int(32). -/
def intCacheSize : Nat := 32

/-- The backoff ceiling fixed by launchSocket: const backoffLimit = 128. -/
def backoffLimit : Nat := 128

/-- The backoff update performed in the CloseChannel branch of launchSocket:
if exponentialBackoff < backoffLimit then it is doubled, otherwise left
unchanged. -/
def onFailure (exponentialBackoff : Nat) : Nat :=
  if exponentialBackoff < backoffLimit then exponentialBackoff * 2 else exponentialBackoff

/-- The backoff reset performed in the successful-send branch of
launchSocket: exponentialBackoff = 1. -/
def onSuccess (_exponentialBackoff : Nat) : Nat := 1

/-- The cache write performed in the successful-send branch of launchSocket:
intPayloadIdx = (intPayloadIdx + 1) % intCacheSize; payloadCache[intPayloadIdx]
= *payload.  The state is the pair (payloadCache, intPayloadIdx); the Go
slice has len = cap, so intCacheSize is the length of the list. -/
def cacheWrite (st : List Payload × Nat) (payload : Payload) : List Payload × Nat :=
  let idx2 := (st.2 + 1) % st.1.length
  (st.1.set idx2 payload, idx2)

/-- The cache contents and cursor after a sequence of successful sends, each
performing the cacheWrite step of launchSocket. -/
def sendAll (st : List Payload × Nat) (items : List Payload) : List Payload × Nat :=
  items.foldl cacheWrite st

/-- The slot read by the replay loop of handleCloseError for loop index i:
intIdx := (intCurrentIdx + intCacheSize - i + 1) % intCacheSize. -/
def replayIndex (intCacheSize intCurrentIdx i : Nat) : Nat :=
  (intCurrentIdx + intCacheSize - i + 1) % intCacheSize

/-- The list of cached payloads read back by the replay loop of
handleCloseError, in push order: the count is first clamped to the cache
capacity ("prevent circular buffer overflow"), then for i = count down to 1
the slot replayIndex is read.  Go indexing of the slice is modelled by getD
with the zero payload as default (every index produced is < length). -/
def replayList (cache : List Payload) (intCurrentIdx : Nat) (intUnsentCount : Nat) :
    List Payload :=
  let intCacheSize := cache.length
  let n := if intUnsentCount > intCacheSize then intCacheSize else intUnsentCount
  (List.range n).map (fun j =>
    cache.getD (replayIndex intCacheSize intCurrentIdx (n - j)) default)

/-- The data carried by the apns.ConnectionClose value received on the close
channel: the length of UnsentPayloads, the optional ErrorPayload, the
overflow flag, and the error text. -/
structure ConnectionClose where
  unsentCount : Nat
  errorPayload : Option Payload
  unsentPayloadBufferOverflow : Bool
  error : String
deriving DecidableEq, Repr, Inhabited

/-- handleCloseError: log the close error, log the unsent count and the
error payload when present, then clamp the unsent count to the cache
capacity and, for i = count down to 1, push the payload at slot
(intCurrentIdx + intCacheSize - i + 1) % intCacheSize back through pushOne
(the normal submit path onto the send channel). -/
def handleCloseError (a : connectionAPNS) (closeError : ConnectionClose) (socketID : Nat)
    (cache : List Payload) (intCurrentIdx : Nat) : connectionAPNS :=
  let a1 := logPush a socketID ("CloseError: " ++ closeError.error)
  let a2 := if closeError.unsentCount > 0 then
      logPush a1 socketID "List length, Overflow" else a1
  let a3 := match closeError.errorPayload with
    | some payload => logPush a2 socketID ("Payload " ++ payload.alertText)
    | none => a2
  if closeError.unsentCount > 0 then
    (replayList cache intCurrentIdx closeError.unsentCount).foldl pushOne a3
  else a3

/-- The goroutine-local state of one launchSocket worker. -/
structure workerState where
  payloadCache : List Payload
  intPayloadIdx : Nat
  exponentialBackoff : Nat
  bConnectionGood : Bool
  bShutdown : Bool
deriving DecidableEq, Repr, Inhabited

/-- The initial local state of launchSocket: a cache of intCacheSize zero
payloads, cursor intCacheSize - 1, backoff 1 second, no connection, no
shutdown.  Each call of launchSocket (one per worker goroutine) allocates
its own copy of this state. -/
def initWorkerState : workerState :=
  { payloadCache := List.replicate intCacheSize default
    intPayloadIdx := intCacheSize - 1
    exponentialBackoff := 1
    bConnectionGood := false
    bShutdown := false }

/-- Which branch of the inner select of launchSocket fires on one iteration.
sendTimeout and sendOk both start with a receive on chanSend (this branch is
only enabled when the channel is nonempty); they differ in which arm of the
nested select fires: the backoff timer or the hand-off to the transport. -/
inductive innerEvent where
  | sendTimeout
  | sendOk
  | closeSignal (closeError : ConnectionClose)
  | doneSignal
deriving DecidableEq, Repr

/-- One iteration of the inner loop of launchSocket for the worker with the
given socketID.  sentToTransport is the transcript of payloads handed to the
transport send channel so far.  In the sendTimeout and sendOk events the
payload is received from chanSend before the nested select runs, exactly as
in the source; in the timeout arm the received payload is then discarded. -/
def innerStep (a : connectionAPNS) (w : workerState) (sentToTransport : List Payload)
    (socketID : Nat) (ev : innerEvent) :
    connectionAPNS × workerState × List Payload :=
  match ev with
  | innerEvent.sendTimeout =>
    match a.chanSend with
    | [] => (a, w, sentToTransport)
    | payload :: rest =>
      let a1 := logPush { a with chanSend := rest } socketID
        ("Push to device " ++ payload.alertText)
      (a1, w, sentToTransport)
  | innerEvent.sendOk =>
    match a.chanSend with
    | [] => (a, w, sentToTransport)
    | payload :: rest =>
      let a1 := logPush { a with chanSend := rest } socketID
        ("Push to device " ++ payload.alertText)
      let st2 := cacheWrite (w.payloadCache, w.intPayloadIdx) payload
      (a1,
       { w with payloadCache := st2.1
                intPayloadIdx := st2.2
                exponentialBackoff := onSuccess w.exponentialBackoff },
       sentToTransport ++ [payload])
  | innerEvent.closeSignal closeError =>
    let a1 := logPush a socketID "Received error, closing connection"
    let w1 := { w with exponentialBackoff := onFailure w.exponentialBackoff }
    let a2 := handleCloseError a1 closeError socketID w1.payloadCache w1.intPayloadIdx
    (a2, { w1 with bConnectionGood := false }, sentToTransport)
  | innerEvent.doneSignal =>
    let a1 := logPush a socketID "Done channel is closed. Closing connection."
    (a1, { w with bShutdown := true }, sentToTransport)

/-- Closing a Go channel that is modelled by its closed flag: closing an
already-closed channel is a run-time panic, modelled by none. -/
def closeDoneLog (a : connectionAPNS) : Option connectionAPNS :=
  if a.chanDoneLog then none else some { a with chanDoneLog := true }

/-- The epilogue of launchSocket after both loops have exited: if bShutdown
then close(a.chanDoneLog).  Every worker goroutine runs this on its own
exit. -/
def socketEpilogue (a : connectionAPNS) (bShutdown : Bool) : Option connectionAPNS :=
  if bShutdown then closeDoneLog a else some a

/-- The tasks launch can start with the go statement. -/
inductive goroutine where
  | launchSocketTask (socketID : Nat)
  | logListenerTask
deriving DecidableEq, Repr

/-- The errors launch can return. -/
inductive launchError where
  | openLogError
  | feedbackError
deriving DecidableEq, Repr

/-- The environment of one launch call: whether os.OpenFile on the log path
fails and whether the feedback-service poll in getBadTokens fails. -/
structure launchEnv where
  openLogFails : Bool
  feedbackFails : Bool
deriving DecidableEq, Repr, Inhabited

/-- launch: sets a.isLogging from the argument, then returns nil at once if
the status is ApnsActive or ApnsNoCerts; otherwise opens the log file (may
fail), polls the feedback service (may fail), allocates fresh done, doneLog,
send and log channels, and starts one launchSocket goroutine per socketID in
1..2, setting the status to ApnsActive.  Returns the new state, the error,
and the list of goroutines started. -/
def launch (a : connectionAPNS) (isLogging : Bool) (env : launchEnv) :
    connectionAPNS × Option launchError × List goroutine :=
  let a1 := { a with isLogging := isLogging }
  if a1.status = statusAPNS.apnsActive ∨ a1.status = statusAPNS.apnsNoCerts then
    (a1, none, [])
  else if env.openLogFails then
    (a1, some launchError.openLogError, [])
  else if env.feedbackFails then
    (a1, some launchError.feedbackError, [])
  else
    ({ a1 with chanDone := false
               chanDoneLog := false
               chanSend := []
               chanLog := []
               status := statusAPNS.apnsActive },
     none,
     [goroutine.launchSocketTask 1, goroutine.launchSocketTask 2])

/-- newConnection (public surface, reproduced in the README): status is
apnsNoCerts when the cert pointer is nil, apnsCertsFound otherwise; the
remaining channel fields start as Go zero values. -/
def newConnection (appID : Int) (stringID : String) (appCert : Option AppCert) :
    connectionAPNS :=
  { appID := appID
    stringID := stringID
    cert := appCert
    status := if appCert = none then statusAPNS.apnsNoCerts else statusAPNS.apnsCertsFound
    isLogging := true
    chanSend := []
    chanLog := []
    chanDone := false
    chanDoneLog := false }

/-- Which branch of the logListener select fires on one iteration. -/
inductive listenerEvent where
  | logEntryReady
  | doneLogReady
deriving DecidableEq, Repr

/-- One iteration of the logListener loop: either an entry is received from
the log channel and written to the logger selected by its socket tag (the
written transcript, in arrival order), or the closed doneLog channel is
observed and bShutdown is set, ending the loop at once without draining the
log channel.  The returned Bool is bShutdown. -/
def logListenerStep (a : connectionAPNS) (written : List logEntry) (ev : listenerEvent) :
    connectionAPNS × List logEntry × Bool :=
  match ev with
  | listenerEvent.logEntryReady =>
    match a.chanLog with
    | [] => (a, written, false)
    | entry :: rest => ({ a with chanLog := rest }, written ++ [entry], false)
  | listenerEvent.doneLogReady =>
    if a.chanDoneLog then (a, written, true) else (a, written, false)

/-- The connection value LaunchConnection constructs when push is enabled:
it calls newConnection with the address of its by-value appCert parameter,
which in Go is never the nil pointer, modelled by some appCert.  When push
is not enabled no connection is constructed. -/
def LaunchConnectionConn (appID : Int) (appString : String) (isPushEnabled : Int)
    (appCert : AppCert) : Option connectionAPNS :=
  if isPushEnabled = 1 then some (newConnection appID appString (some appCert)) else none

/-! Concrete instances used by witnesses and counterexamples. -/

/-- Notification payload A of the capacity-4 scenario. -/
def payloadA : Payload := { token := "tokA", alertText := "A", extraData := "uA", category := "" }

/-- Notification payload B of the capacity-4 scenario. -/
def payloadB : Payload := { token := "tokB", alertText := "B", extraData := "uB", category := "" }

/-- Notification payload C of the capacity-4 scenario. -/
def payloadC : Payload := { token := "tokC", alertText := "C", extraData := "uC", category := "" }

/-- Notification payload D of the capacity-4 scenario. -/
def payloadD : Payload := { token := "tokD", alertText := "D", extraData := "uD", category := "" }

/-- Notification payload E of the capacity-4 scenario. -/
def payloadE : Payload := { token := "tokE", alertText := "E", extraData := "uE", category := "" }

/-- Notification payload F of the capacity-4 scenario. -/
def payloadF : Payload := { token := "tokF", alertText := "F", extraData := "uF", category := "" }

/-- The six consecutive successful sends of the capacity-4 scenario. -/
def sixItems : List Payload := [payloadA, payloadB, payloadC, payloadD, payloadE, payloadF]

/-- A sample certificate record with nonempty byte slices. -/
def sampleCert : AppCert := { AppID := 7, IsDev := 0, Cert := [1, 2], RSAKey := [3, 4] }

/-- A certificate record whose byte slices are empty. -/
def emptyCert : AppCert := { AppID := 5, IsDev := 1, Cert := [], RSAKey := [] }

/-- A connection in the ApnsActive state with freshly allocated channels, as
left by a successful launch. -/
def connActive : connectionAPNS :=
  { appID := 7
    stringID := "app7"
    cert := some sampleCert
    status := statusAPNS.apnsActive
    isLogging := true
    chanSend := []
    chanLog := []
    chanDone := false
    chanDoneLog := false }

/-- connActive with one payload queued on the send channel. -/
def connOneQueued : connectionAPNS := { connActive with chanSend := [payloadA] }

/-- A launch environment in which neither the log file nor the feedback poll
fails. -/
def cleanEnv : launchEnv := { openLogFails := false, feedbackFails := false }

/-- A close signal reporting three unsent payloads. -/
def closeThree : ConnectionClose :=
  { unsentCount := 3, errorPayload := none, unsentPayloadBufferOverflow := false
    error := "EOF" }

/-- A close signal reporting ten unsent payloads. -/
def closeTen : ConnectionClose :=
  { unsentCount := 10, errorPayload := none, unsentPayloadBufferOverflow := false
    error := "EOF" }

/-- A close signal reporting one unsent payload. -/
def closeOne : ConnectionClose :=
  { unsentCount := 1, errorPayload := none, unsentPayloadBufferOverflow := false
    error := "EOF" }

/-! Helper lemmas about the ring-buffer cache and the channel operations. -/

theorem sendAll_cons (st : List Payload × Nat) (p : Payload) (rest : List Payload) :
    sendAll st (p :: rest) = sendAll (cacheWrite st p) rest := rfl

theorem cacheWrite_pair (cache : List Payload) (idx : Nat) (p : Payload) :
    cacheWrite (cache, idx) p
      = (cache.set ((idx + 1) % cache.length) p, (idx + 1) % cache.length) := rfl

theorem sendAll_length (items : List Payload) (st : List Payload × Nat) :
    (sendAll st items).1.length = st.1.length := by
  induction items generalizing st with
  | nil => rfl
  | cons p rest ih =>
    rw [sendAll_cons, ih]
    simp [cacheWrite]

theorem sendAll_cursor (items : List Payload) (cache : List Payload) (idx : Nat)
    (hC : 0 < cache.length) (hidx : idx < cache.length) :
    (sendAll (cache, idx) items).2 = (idx + items.length) % cache.length := by
  induction items generalizing cache idx with
  | nil => simp [sendAll, Nat.mod_eq_of_lt hidx]
  | cons p rest ih =>
    rw [sendAll_cons, cacheWrite_pair]
    have hlen : (cache.set ((idx + 1) % cache.length) p).length = cache.length := by simp
    have hC2 : 0 < (cache.set ((idx + 1) % cache.length) p).length := by simpa [hlen]
    have hidx2 : (idx + 1) % cache.length
        < (cache.set ((idx + 1) % cache.length) p).length := by
      rw [hlen]; exact Nat.mod_lt _ hC
    rw [ih _ _ hC2 hidx2, hlen, Nat.mod_add_mod]
    simp only [List.length_cons]
    congr 1
    omega

theorem getD_set_ne (l : List Payload) (i j : Nat) (p d : Payload) (h : i ≠ j) :
    (l.set i p).getD j d = l.getD j d := by
  simp only [List.getD, List.get?_eq_getElem?]
  rw [List.getElem?_set_ne h]

theorem getD_set_self (l : List Payload) (i : Nat) (p d : Payload) (h : i < l.length) :
    (l.set i p).getD i d = p := by
  rw [List.getD_eq_getElem _ _ (by simpa using h)]
  exact List.getElem_set_self (by simpa using h)

theorem sendAll_getD_untouched (items : List Payload) (cache : List Payload) (idx j : Nat)
    (hC : 0 < cache.length)
    (hj : ∀ k, 1 ≤ k → k ≤ items.length → (idx + k) % cache.length ≠ j) :
    (sendAll (cache, idx) items).1.getD j default = cache.getD j default := by
  induction items generalizing cache idx with
  | nil => rfl
  | cons p rest ih =>
    rw [sendAll_cons, cacheWrite_pair]
    have hlen : (cache.set ((idx + 1) % cache.length) p).length = cache.length := by simp
    have hC2 : 0 < (cache.set ((idx + 1) % cache.length) p).length := by simpa [hlen]
    have hj2 : ∀ k, 1 ≤ k → k ≤ rest.length →
        ((idx + 1) % cache.length + k) % (cache.set ((idx + 1) % cache.length) p).length
          ≠ j := by
      intro k hk1 hk2
      rw [hlen, Nat.mod_add_mod]
      have e1 : idx + 1 + k = idx + (k + 1) := by omega
      rw [e1]
      exact hj (k + 1) (by omega) (by simp only [List.length_cons]; omega)
    rw [ih _ _ hC2 hj2]
    exact getD_set_ne _ _ _ _ _ (hj 1 (by omega) (by simp only [List.length_cons]; omega))

theorem sendAll_getD_recent (items : List Payload) (cache : List Payload) (idx i : Nat)
    (hC : 0 < cache.length) (h1 : 1 ≤ i) (h2 : i ≤ items.length) (h3 : i ≤ cache.length) :
    (sendAll (cache, idx) items).1.getD ((idx + items.length + 1 - i) % cache.length) default
      = items.getD (items.length - i) default := by
  induction items generalizing cache idx i with
  | nil => simp only [List.length_nil] at h2; omega
  | cons p rest ih =>
    rw [sendAll_cons, cacheWrite_pair]
    have hlen : (cache.set ((idx + 1) % cache.length) p).length = cache.length := by simp
    by_cases hi : i ≤ rest.length
    · have key := ih (cache.set ((idx + 1) % cache.length) p) ((idx + 1) % cache.length) i
        (by simpa [hlen]) h1 hi (by rw [hlen]; exact h3)
      have hidx : ((idx + 1) % cache.length + rest.length + 1 - i)
            % (cache.set ((idx + 1) % cache.length) p).length
          = (idx + (p :: rest).length + 1 - i) % cache.length := by
        rw [hlen]
        have e1 : (idx + 1) % cache.length + rest.length + 1 - i
            = (idx + 1) % cache.length + (rest.length + 1 - i) := by omega
        rw [e1, Nat.mod_add_mod]
        simp only [List.length_cons]
        congr 1
        omega
      rw [hidx] at key
      rw [key]
      have e2 : (p :: rest).length - i = (rest.length - i) + 1 := by
        simp only [List.length_cons]; omega
      rw [e2, List.getD_cons_succ]
    · have hi2 : i = rest.length + 1 := by
        simp only [List.length_cons] at h2; omega
      have hidx : (idx + (p :: rest).length + 1 - i) % cache.length
          = (idx + 1) % cache.length := by
        simp only [List.length_cons]
        congr 1
        omega
      rw [hidx]
      have hunt : ∀ k, 1 ≤ k → k ≤ rest.length →
          ((idx + 1) % cache.length + k) % (cache.set ((idx + 1) % cache.length) p).length
            ≠ (idx + 1) % cache.length := by
        intro k hk1 hk2 hEq
        rw [hlen, Nat.mod_add_mod] at hEq
        have hme : Nat.ModEq cache.length (idx + 1) (idx + 1 + k) := hEq.symm
        have hdvd : cache.length ∣ (idx + 1 + k) - (idx + 1) :=
          (Nat.modEq_iff_dvd' (by omega)).mp hme
        have e3 : (idx + 1 + k) - (idx + 1) = k := by omega
        rw [e3] at hdvd
        have hle := Nat.le_of_dvd (by omega) hdvd
        omega
      rw [sendAll_getD_untouched rest _ _ _ (by simpa [hlen]) hunt]
      rw [getD_set_self _ _ _ _ (Nat.mod_lt _ hC)]
      have e4 : (p :: rest).length - i = 0 := by simp only [List.length_cons]; omega
      rw [e4, List.getD_cons_zero]

theorem replayList_sendAll (cache : List Payload) (idx : Nat) (items : List Payload) (N : Nat)
    (hC : 0 < cache.length) (hidx : idx < cache.length)
    (hNC : N ≤ cache.length) (hNk : N ≤ items.length) :
    replayList (sendAll (cache, idx) items).1 (sendAll (cache, idx) items).2 N
      = items.drop (items.length - N) := by
  have hlen : (sendAll (cache, idx) items).1.length = cache.length := sendAll_length _ _
  have hcur : (sendAll (cache, idx) items).2 = (idx + items.length) % cache.length :=
    sendAll_cursor _ _ _ hC hidx
  simp only [replayList, hlen, hcur]
  rw [if_neg (by omega)]
  apply List.ext_getElem
  · simp only [List.length_map, List.length_range, List.length_drop]
    omega
  intro j hj1 hj2
  have hj : j < N := by simpa using hj1
  simp only [List.getElem_map, List.getElem_range]
  have hrew : replayIndex cache.length ((idx + items.length) % cache.length) (N - j)
      = (idx + items.length + 1 - (N - j)) % cache.length := by
    unfold replayIndex
    have e1 : (idx + items.length) % cache.length + cache.length - (N - j) + 1
        = (idx + items.length) % cache.length + (cache.length - (N - j) + 1) := by omega
    rw [e1, Nat.mod_add_mod]
    have e2 : idx + items.length + (cache.length - (N - j) + 1)
        = (idx + items.length + 1 - (N - j)) + cache.length := by omega
    rw [e2, Nat.add_mod_right]
  rw [hrew]
  rw [sendAll_getD_recent items cache idx (N - j) hC (by omega) (by omega) (by omega)]
  have hlt : items.length - (N - j) < items.length := by omega
  rw [List.getD_eq_getElem _ _ hlt, List.getElem_drop]
  congr 1
  omega

theorem replayList_zero (cache : List Payload) (idx : Nat) :
    replayList cache idx 0 = [] := by
  simp [replayList]

theorem replayList_clamp (cache : List Payload) (idx N : Nat) (h : cache.length < N) :
    replayList cache idx N = replayList cache idx cache.length := by
  simp only [replayList]
  rw [if_pos (by omega), if_neg (by omega)]

theorem logPush_chanSend (a : connectionAPNS) (socketID : Nat) (message : String) :
    (logPush a socketID message).chanSend = a.chanSend := by
  unfold logPush; split <;> rfl

theorem logPush_status (a : connectionAPNS) (socketID : Nat) (message : String) :
    (logPush a socketID message).status = a.status := by
  unfold logPush; split <;> rfl

theorem pushOne_status (a : connectionAPNS) (p : Payload) :
    (pushOne a p).status = a.status := by
  unfold pushOne; split <;> rfl

theorem foldl_pushOne_chanSend (L : List Payload) (a : connectionAPNS)
    (h : a.status = statusAPNS.apnsActive) :
    (L.foldl pushOne a).chanSend = a.chanSend ++ L := by
  induction L generalizing a with
  | nil => simp
  | cons p rest ih =>
    simp only [List.foldl_cons]
    rw [ih (pushOne a p) (by rw [pushOne_status]; exact h)]
    unfold pushOne
    rw [if_pos h]
    simp

theorem handleCloseError_chanSend (a : connectionAPNS) (closeError : ConnectionClose)
    (socketID : Nat) (cache : List Payload) (idx : Nat)
    (h : a.status = statusAPNS.apnsActive) :
    (handleCloseError a closeError socketID cache idx).chanSend
      = a.chanSend ++ replayList cache idx closeError.unsentCount := by
  simp only [handleCloseError]
  by_cases h0 : closeError.unsentCount > 0
  · cases hep : closeError.errorPayload with
    | none =>
      rw [if_pos h0, if_pos h0]
      rw [foldl_pushOne_chanSend _ _
        (by rw [logPush_status, logPush_status]; exact h)]
      rw [logPush_chanSend, logPush_chanSend]
    | some p =>
      rw [if_pos h0, if_pos h0]
      rw [foldl_pushOne_chanSend _ _
        (by rw [logPush_status, logPush_status, logPush_status]; exact h)]
      rw [logPush_chanSend, logPush_chanSend, logPush_chanSend]
  · have h00 : closeError.unsentCount = 0 := by omega
    rw [if_neg h0, if_neg h0, h00, replayList_zero]
    cases hep : closeError.errorPayload with
    | none => simp [logPush_chanSend]
    | some p => simp [logPush_chanSend]

theorem close_status_ne_active (a : connectionAPNS) :
    (close a).status ≠ statusAPNS.apnsActive := by
  unfold close
  split
  · intro hcontra; cases hcontra
  · next hne => simpa using hne

theorem pushOne_close (a : connectionAPNS) (p : Payload) :
    pushOne (close a) p = close a := by
  unfold pushOne
  rw [if_neg (close_status_ne_active a)]

theorem onFailure_iterate (K : Nat) :
    onFailure^[K] 1 = min (2 ^ K) backoffLimit := by
  induction K with
  | zero => simp [backoffLimit]
  | succ k ih =>
    rw [Function.iterate_succ_apply', ih]
    unfold onFailure backoffLimit
    by_cases h : 2 ^ k < 128
    · rw [min_eq_left (le_of_lt h), if_pos h]
      have hk : k < 7 := by
        have h7 : (128 : Nat) = 2 ^ 7 := by norm_num
        rw [h7] at h
        exact (Nat.pow_lt_pow_iff_right (by norm_num)).mp h
      have h2 : 2 ^ (k + 1) ≤ 128 := by
        calc 2 ^ (k + 1) ≤ 2 ^ 7 := Nat.pow_le_pow_right (by norm_num) (by omega)
        _ = 128 := by norm_num
      rw [min_eq_left h2]
      ring
    · push_neg at h
      rw [min_eq_right h, if_neg (by omega)]
      have hmono : 2 ^ k ≤ 2 ^ (k + 1) := Nat.pow_le_pow_right (by norm_num) (by omega)
      rw [min_eq_right (by omega)]

end Apnsservice

namespace Apnsservice

/-- Claim C1: after a closure reporting unsent-count N with N at most the cache
capacity and at least N prior successful sends, the replay algorithm of
handleCloseError re-enqueues exactly the N most recently sent items in their
original send order (oldest of the N first), reading cache slot
(cursor + capacity - i + 1) mod capacity for i = N down to 1 and pushing each
item back through pushOne onto the shared send queue. -/
theorem C1_replay_most_recent (Ccap : Nat) (items : List Payload) (N : Nat)
    (a : connectionAPNS) (closeError : ConnectionClose) (socketID : Nat)
    (hC : 0 < Ccap) (hNC : N ≤ Ccap) (hNk : N ≤ items.length)
    (hA : a.status = statusAPNS.apnsActive) (hcnt : closeError.unsentCount = N) :
    replayList (sendAll (List.replicate Ccap default, Ccap - 1) items).1
        (sendAll (List.replicate Ccap default, Ccap - 1) items).2 N
      = items.drop (items.length - N)
    ∧ (handleCloseError a closeError socketID
        (sendAll (List.replicate Ccap default, Ccap - 1) items).1
        (sendAll (List.replicate Ccap default, Ccap - 1) items).2).chanSend
      = a.chanSend ++ items.drop (items.length - N) := by
  have hcache : (List.replicate Ccap (default : Payload)).length = Ccap := by simp
  have hmain := replayList_sendAll (List.replicate Ccap default) (Ccap - 1) items N
    (by rw [hcache]; exact hC) (by rw [hcache]; omega) (by rw [hcache]; exact hNC) hNk
  refine ⟨hmain, ?_⟩
  rw [handleCloseError_chanSend _ _ _ _ _ hA, hcnt, hmain]

/-- Witness for C1: capacity 4, six consecutive successful sends A,B,C,D,E,F,
a closure reporting unsent-count 3: the replay set is D,E,F in that order,
re-enqueued onto the send queue. -/
theorem C1_replay_most_recent_witness :
    (0 < 4 ∧ 3 ≤ 4 ∧ 3 ≤ sixItems.length ∧ connActive.status = statusAPNS.apnsActive
      ∧ closeThree.unsentCount = 3)
    ∧ (replayList (sendAll (List.replicate 4 default, 4 - 1) sixItems).1
        (sendAll (List.replicate 4 default, 4 - 1) sixItems).2 3
      = sixItems.drop (sixItems.length - 3)
    ∧ (handleCloseError connActive closeThree 1
        (sendAll (List.replicate 4 default, 4 - 1) sixItems).1
        (sendAll (List.replicate 4 default, 4 - 1) sixItems).2).chanSend
      = connActive.chanSend ++ sixItems.drop (sixItems.length - 3))
    ∧ sixItems.drop (sixItems.length - 3) = [payloadD, payloadE, payloadF] :=
  ⟨⟨by decide, by decide, by decide, rfl, rfl⟩,
   C1_replay_most_recent 4 sixItems 3 connActive closeThree 1
     (by decide) (by decide) (by decide) rfl rfl,
   by decide⟩

/-- Claim C2: when the reported unsent-count N exceeds the cache capacity, the
replay clamps N to the capacity and re-enqueues exactly the capacity many most
recent items, never reading more slots than the cache holds. -/
theorem C2_replay_clamped (Ccap : Nat) (items : List Payload) (N : Nat)
    (a : connectionAPNS) (closeError : ConnectionClose) (socketID : Nat)
    (hC : 0 < Ccap) (hNC : Ccap < N) (hk : Ccap ≤ items.length)
    (hA : a.status = statusAPNS.apnsActive) (hcnt : closeError.unsentCount = N) :
    (replayList (sendAll (List.replicate Ccap default, Ccap - 1) items).1
        (sendAll (List.replicate Ccap default, Ccap - 1) items).2 N).length = Ccap
    ∧ replayList (sendAll (List.replicate Ccap default, Ccap - 1) items).1
        (sendAll (List.replicate Ccap default, Ccap - 1) items).2 N
      = items.drop (items.length - Ccap)
    ∧ (handleCloseError a closeError socketID
        (sendAll (List.replicate Ccap default, Ccap - 1) items).1
        (sendAll (List.replicate Ccap default, Ccap - 1) items).2).chanSend
      = a.chanSend ++ items.drop (items.length - Ccap) := by
  have hcache : (List.replicate Ccap (default : Payload)).length = Ccap := by simp
  have hflen : (sendAll (List.replicate Ccap default, Ccap - 1) items).1.length = Ccap := by
    rw [sendAll_length, hcache]
  have hclamp := replayList_clamp (sendAll (List.replicate Ccap default, Ccap - 1) items).1
    (sendAll (List.replicate Ccap default, Ccap - 1) items).2 N (by rw [hflen]; exact hNC)
  rw [hflen] at hclamp
  have hmain := replayList_sendAll (List.replicate Ccap default) (Ccap - 1) items Ccap
    (by rw [hcache]; exact hC) (by rw [hcache]; omega) (by rw [hcache]) hk
  have heq : replayList (sendAll (List.replicate Ccap default, Ccap - 1) items).1
      (sendAll (List.replicate Ccap default, Ccap - 1) items).2 N
      = items.drop (items.length - Ccap) := by rw [hclamp, hmain]
  refine ⟨?_, heq, ?_⟩
  · rw [heq, List.length_drop]; omega
  · rw [handleCloseError_chanSend _ _ _ _ _ hA, hcnt, heq]

/-- Witness for C2: capacity 4, six sends A..F, a reported unsent-count of 10:
exactly the 4 most recent items C,D,E,F are replayed. -/
theorem C2_replay_clamped_witness :
    (0 < 4 ∧ 4 < 10 ∧ 4 ≤ sixItems.length ∧ connActive.status = statusAPNS.apnsActive
      ∧ closeTen.unsentCount = 10)
    ∧ ((replayList (sendAll (List.replicate 4 default, 4 - 1) sixItems).1
        (sendAll (List.replicate 4 default, 4 - 1) sixItems).2 10).length = 4
    ∧ replayList (sendAll (List.replicate 4 default, 4 - 1) sixItems).1
        (sendAll (List.replicate 4 default, 4 - 1) sixItems).2 10
      = sixItems.drop (sixItems.length - 4)
    ∧ (handleCloseError connActive closeTen 2
        (sendAll (List.replicate 4 default, 4 - 1) sixItems).1
        (sendAll (List.replicate 4 default, 4 - 1) sixItems).2).chanSend
      = connActive.chanSend ++ sixItems.drop (sixItems.length - 4))
    ∧ sixItems.drop (sixItems.length - 4) = [payloadC, payloadD, payloadE, payloadF] :=
  ⟨⟨by decide, by decide, by decide, rfl, rfl⟩,
   C2_replay_clamped 4 sixItems 10 connActive closeTen 2
     (by decide) (by decide) (by decide) rfl rfl,
   by decide⟩

end Apnsservice

namespace Apnsservice

/-- Counterexample to claim C3: in the send branch of the inner loop the
payload is received from the shared send queue before the nested select
races the backoff timer against the transport hand-off, so in the timeout
branch the item has already been consumed: starting from a queue holding
exactly payloadA, after a timeout iteration the queue is empty, nothing was
handed to the transport, and the cache is unchanged, so the item is lost,
contradicting the claim that it was never consumed and is still available. -/
theorem C3_timeout_item_lost_counterexample :
    connOneQueued.chanSend = [payloadA]
    ∧ (innerStep connOneQueued initWorkerState [] 1 innerEvent.sendTimeout).1.chanSend = []
    ∧ (innerStep connOneQueued initWorkerState [] 1 innerEvent.sendTimeout).2.1
        = initWorkerState
    ∧ (innerStep connOneQueued initWorkerState [] 1 innerEvent.sendTimeout).2.2 = [] := by
  refine ⟨rfl, rfl, rfl, rfl⟩

/-- Claim C3 as amended: per item, exactly one of successful send or silent
drop happens.  If the send attempt does not complete within the current
backoff delay, the item has already been consumed from the shared send queue
and is dropped: it is neither handed to the transport nor cached nor
re-enqueued, and the worker state is unchanged.  Only on a successful
hand-off is the item consumed, handed to the transport, appended to the
retry cache with the cursor advanced, and the backoff reset to the floor. -/
theorem C3_send_branch_amended (a : connectionAPNS) (w : workerState)
    (sent : List Payload) (socketID : Nat) (payload : Payload) (rest : List Payload)
    (hq : a.chanSend = payload :: rest) :
    (innerStep a w sent socketID innerEvent.sendTimeout).1.chanSend = rest
    ∧ (innerStep a w sent socketID innerEvent.sendTimeout).2.1 = w
    ∧ (innerStep a w sent socketID innerEvent.sendTimeout).2.2 = sent
    ∧ (innerStep a w sent socketID innerEvent.sendOk).1.chanSend = rest
    ∧ (innerStep a w sent socketID innerEvent.sendOk).2.2 = sent ++ [payload]
    ∧ (innerStep a w sent socketID innerEvent.sendOk).2.1.payloadCache
        = w.payloadCache.set ((w.intPayloadIdx + 1) % w.payloadCache.length) payload
    ∧ (innerStep a w sent socketID innerEvent.sendOk).2.1.intPayloadIdx
        = (w.intPayloadIdx + 1) % w.payloadCache.length
    ∧ (innerStep a w sent socketID innerEvent.sendOk).2.1.exponentialBackoff = 1 := by
  simp [innerStep, hq, logPush_chanSend, cacheWrite, onSuccess]

/-- Witness for the amended C3: the concrete one-item queue. -/
theorem C3_send_branch_amended_witness :
    connOneQueued.chanSend = payloadA :: []
    ∧ ((innerStep connOneQueued initWorkerState [] 1 innerEvent.sendTimeout).1.chanSend = []
    ∧ (innerStep connOneQueued initWorkerState [] 1 innerEvent.sendTimeout).2.1
        = initWorkerState
    ∧ (innerStep connOneQueued initWorkerState [] 1 innerEvent.sendTimeout).2.2 = []
    ∧ (innerStep connOneQueued initWorkerState [] 1 innerEvent.sendOk).1.chanSend = []
    ∧ (innerStep connOneQueued initWorkerState [] 1 innerEvent.sendOk).2.2
        = [] ++ [payloadA]
    ∧ (innerStep connOneQueued initWorkerState [] 1 innerEvent.sendOk).2.1.payloadCache
        = initWorkerState.payloadCache.set
            ((initWorkerState.intPayloadIdx + 1) % initWorkerState.payloadCache.length)
            payloadA
    ∧ (innerStep connOneQueued initWorkerState [] 1 innerEvent.sendOk).2.1.intPayloadIdx
        = (initWorkerState.intPayloadIdx + 1) % initWorkerState.payloadCache.length
    ∧ (innerStep connOneQueued initWorkerState [] 1 innerEvent.sendOk).2.1.exponentialBackoff
        = 1) :=
  ⟨rfl, C3_send_branch_amended connOneQueued initWorkerState [] 1 payloadA [] rfl⟩

/-- Claim C6: the backoff starts at the floor of 1; each closure applies the
doubling step capped at backoffLimit, so K consecutive failures from the
floor give min (2 to the K) backoffLimit; the successful-send branch resets
the backoff to the floor regardless of prior state.  The last conjunct shows
the inner loop applying exactly these updates. -/
theorem C6_backoff_doubling_capped_reset :
    initWorkerState.exponentialBackoff = 1
    ∧ (∀ K : Nat, onFailure^[K] 1 = min (2 ^ K) backoffLimit)
    ∧ (∀ x : Nat, onSuccess x = 1)
    ∧ (∀ (a : connectionAPNS) (w : workerState) (sent : List Payload) (socketID : Nat)
        (closeError : ConnectionClose),
        (innerStep a w sent socketID
          (innerEvent.closeSignal closeError)).2.1.exponentialBackoff
          = onFailure w.exponentialBackoff)
    ∧ (∀ (a0 : connectionAPNS) (w : workerState) (sent : List Payload) (socketID : Nat)
        (payload : Payload) (rest : List Payload),
        (innerStep { a0 with chanSend := payload :: rest } w sent socketID
          innerEvent.sendOk).2.1.exponentialBackoff
          = onSuccess w.exponentialBackoff) :=
  ⟨rfl, onFailure_iterate, fun _ => rfl,
   fun _ _ _ _ _ => rfl, fun _ _ _ _ _ _ => rfl⟩

/-- Counterexample to claim C7: calling launch while the status is ApnsActive
does return nil and starts no workers, but it is not free of state changes:
the isLogging flag is assigned from the argument before the status check, so
launching an active, logging connection with logging disabled changes the
manager state. -/
theorem C7_launch_mutates_islogging_counterexample :
    connActive.status = statusAPNS.apnsActive
    ∧ (launch connActive false cleanEnv).2.1 = none
    ∧ (launch connActive false cleanEnv).2.2 = []
    ∧ (launch connActive false cleanEnv).1 ≠ connActive := by
  refine ⟨rfl, rfl, rfl, ?_⟩
  decide

/-- Claim C7 as amended: calling launch while the status is ApnsActive or
ApnsNoCerts returns nil, starts no workers, and changes no state of the
manager except the isLogging flag, which is unconditionally set from the
argument before the status check; hence a second launch immediately after a
successful one adds no second pair of workers. -/
theorem C7_launch_idempotent_amended (a : connectionAPNS) (isLogging : Bool)
    (env : launchEnv)
    (h : a.status = statusAPNS.apnsActive ∨ a.status = statusAPNS.apnsNoCerts) :
    launch a isLogging env = ({ a with isLogging := isLogging }, none, []) := by
  simp only [launch]
  rw [if_pos (by simpa using h)]

/-- Witness for the amended C7 at an active connection. -/
theorem C7_launch_idempotent_amended_witness :
    (connActive.status = statusAPNS.apnsActive ∨ connActive.status = statusAPNS.apnsNoCerts)
    ∧ launch connActive false cleanEnv = ({ connActive with isLogging := false }, none, []) :=
  ⟨Or.inl rfl, C7_launch_idempotent_amended connActive false cleanEnv (Or.inl rfl)⟩

/-- Claim C8: after close the status is never ApnsActive, so pushOne leaves
the state unchanged: an item submitted after close and before any subsequent
launch is never placed on the send queue, and any sequence of such submits
is dropped in the same way. -/
theorem C8_submit_after_close_dropped (a : connectionAPNS) (p : Payload)
    (ps : List Payload) :
    (close a).status ≠ statusAPNS.apnsActive
    ∧ pushOne (close a) p = close a
    ∧ ps.foldl pushOne (close a) = close a := by
  refine ⟨close_status_ne_active a, pushOne_close a p, ?_⟩
  induction ps with
  | nil => rfl
  | cons q qs ih => rw [List.foldl_cons, pushOne_close a q, ih]

end Apnsservice

namespace Apnsservice

/-- Evaluation of the code at the failing input of claim C4: the retry cache
and its cursor are goroutine-local variables of launchSocket, so each of the
two workers has its own copy of initWorkerState.  Worker 1 successfully
sends payloadA, writing it into its own cache only; a closure observed by
worker 2 with unsent-count 1 replays from the still-pristine cache of worker 2
and re-enqueues the zero payload instead of payloadA. -/
theorem C4_cache_not_shared_eval :
    (innerStep connOneQueued initWorkerState [] 1 innerEvent.sendOk).2.1.payloadCache
      ≠ initWorkerState.payloadCache
    ∧ (innerStep (innerStep connOneQueued initWorkerState [] 1 innerEvent.sendOk).1
        initWorkerState [] 2 (innerEvent.closeSignal closeOne)).1.chanSend
      = [(default : Payload)]
    ∧ payloadA ∉
      (innerStep (innerStep connOneQueued initWorkerState [] 1 innerEvent.sendOk).1
        initWorkerState [] 2 (innerEvent.closeSignal closeOne)).1.chanSend := by
  refine ⟨by decide, rfl, by decide⟩

/-- Claim C5 is contradicted by the code: launch starts exactly the two
launchSocket goroutines and never starts the logListener task, so no
consumer drains the log channel, for any state and environment. -/
theorem C5_no_log_consumer_started (a : connectionAPNS) (isLogging : Bool)
    (env : launchEnv) :
    goroutine.logListenerTask ∉ (launch a isLogging env).2.2
    ∧ ((launch a isLogging env).2.2 = []
      ∨ (launch a isLogging env).2.2
        = [goroutine.launchSocketTask 1, goroutine.launchSocketTask 2]) := by
  simp only [launch]
  split
  · exact ⟨List.not_mem_nil _, Or.inl rfl⟩
  · split
    · exact ⟨List.not_mem_nil _, Or.inl rfl⟩
    · split
      · exact ⟨List.not_mem_nil _, Or.inl rfl⟩
      · refine ⟨?_, Or.inr rfl⟩
        simp

/-- Evaluation of the code at the failing input of claim C9: on shutdown
both workers exit with bShutdown true, and each runs the launchSocket
epilogue closing chanDoneLog.  The first worker closes the channel at once,
without waiting for its sibling; the second close is a close of an
already-closed channel, a run-time panic (none).  Moreover, the relay loop,
upon observing the closed doneLog channel, stops immediately with the queued
entry still undrained. -/
theorem C9_shutdown_signal_eval :
    socketEpilogue connActive true = some { connActive with chanDoneLog := true }
    ∧ (socketEpilogue connActive true).bind (fun a1 => socketEpilogue a1 true) = none
    ∧ (logListenerStep
        { connActive with chanDoneLog := true
                          chanLog := [{ socketID := 1, message := "final" }] }
        [] listenerEvent.doneLogReady).2.2 = true
    ∧ (logListenerStep
        { connActive with chanDoneLog := true
                          chanLog := [{ socketID := 1, message := "final" }] }
        [] listenerEvent.doneLogReady).1.chanLog
      = [{ socketID := 1, message := "final" }]
    ∧ (logListenerStep
        { connActive with chanDoneLog := true
                          chanLog := [{ socketID := 1, message := "final" }] }
        [] listenerEvent.doneLogReady).2.1 = [] := by
  refine ⟨rfl, rfl, rfl, rfl, rfl⟩

/-- Claim C10: every connection created through the public LaunchConnection
surface is built by newConnection from the address of the by-value AppCert
parameter, which is never the nil pointer, so its status is ApnsCertsFound
and never ApnsNoCerts, even when the certificate byte slices are empty. -/
theorem C10_public_launch_certsfound (appID : Int) (appString : String)
    (isPushEnabled : Int) (appCert : AppCert) (c : connectionAPNS)
    (h : LaunchConnectionConn appID appString isPushEnabled appCert = some c) :
    c.status = statusAPNS.apnsCertsFound ∧ c.cert = some appCert
    ∧ c.status ≠ statusAPNS.apnsNoCerts := by
  unfold LaunchConnectionConn at h
  by_cases hp : isPushEnabled = 1
  · rw [if_pos hp] at h
    cases h
    refine ⟨rfl, rfl, by simp [newConnection]⟩
  · rw [if_neg hp] at h
    cases h

/-- Witness for C10 with empty certificate byte slices. -/
theorem C10_public_launch_certsfound_witness :
    LaunchConnectionConn 5 "app5" 1 emptyCert
      = some (newConnection 5 "app5" (some emptyCert))
    ∧ ((newConnection 5 "app5" (some emptyCert)).status = statusAPNS.apnsCertsFound
      ∧ (newConnection 5 "app5" (some emptyCert)).cert = some emptyCert
      ∧ (newConnection 5 "app5" (some emptyCert)).status ≠ statusAPNS.apnsNoCerts) :=
  ⟨rfl, C10_public_launch_certsfound 5 "app5" 1 emptyCert _ rfl⟩

end Apnsservice
